import Mathlib

/-!
Verification development for the rivian-ls telemetry client.

The Go source is shallowly embedded: Go float64 values become rationals,
Go time instants become integer nanoseconds (the Go zero time is 0),
Go pointers become options, and Go string-typed enums stay strings.
Structures and functions keep the source names and structure so that each
definition can be diffed against the corresponding Go declaration.
-/

namespace RivianLS

/-- Go duration constant: one second in nanoseconds. -/
def Second : Int := 1000000000

/-- Go duration constant: one minute in nanoseconds. -/
def Minute : Int := 60 * Second

/-- Go duration constant: one hour in nanoseconds. -/
def Hour : Int := 60 * Minute

/-- Go float-to-int conversion truncates toward zero. -/
def goTruncInt (q : ℚ) : Int :=
  if q < 0 then -(Int.floor (-q)) else Int.floor q

/-- Go math.Round: nearest integer, halves away from zero, as a rational. -/
def mathRound (x : ℚ) : ℚ :=
  if x < 0 then -((Int.floor (-x + 1/2) : Int) : ℚ) else ((Int.floor (x + 1/2) : Int) : ℚ)

namespace Rivian

/-- Wire envelope: the timestamped scalar object of the GraphQL schema
(struct timestampedValue in the rivian package). -/
structure TimestampedValue (α : Type) where
  typename : String := ""
  timeStamp : String := ""
  value : α
deriving DecidableEq

/-- Wire GPS object (struct gnssLocation). -/
structure GnssLocation where
  typename : String := ""
  latitude : ℚ := 0
  longitude : ℚ := 0
  timeStamp : String := ""
deriving DecidableEq

/-- Wire vehicle-state payload (struct vehicleStateData): every sensor field
is optional, mirroring the Go pointer fields. -/
structure VehicleStateData where
  typename : String := ""
  gnssLocation : Option GnssLocation := none
  batteryLevel : Option (TimestampedValue ℚ) := none
  distanceToEmpty : Option (TimestampedValue ℚ) := none
  chargerState : Option (TimestampedValue String) := none
  batteryLimit : Option (TimestampedValue ℚ) := none
  timeToEndOfCharge : Option (TimestampedValue Int) := none
  vehicleMileage : Option (TimestampedValue ℚ) := none
  cabinClimateInteriorTemperature : Option (TimestampedValue ℚ) := none
  doorFrontLeftLocked : Option (TimestampedValue String) := none
  doorFrontLeftClosed : Option (TimestampedValue String) := none
  doorFrontRightLocked : Option (TimestampedValue String) := none
  doorFrontRightClosed : Option (TimestampedValue String) := none
  doorRearLeftLocked : Option (TimestampedValue String) := none
  doorRearLeftClosed : Option (TimestampedValue String) := none
  doorRearRightLocked : Option (TimestampedValue String) := none
  doorRearRightClosed : Option (TimestampedValue String) := none
  windowFrontLeftClosed : Option (TimestampedValue String) := none
  windowFrontRightClosed : Option (TimestampedValue String) := none
  windowRearLeftClosed : Option (TimestampedValue String) := none
  windowRearRightClosed : Option (TimestampedValue String) := none
  closureFrunkLocked : Option (TimestampedValue String) := none
  closureFrunkClosed : Option (TimestampedValue String) := none
  closureLiftgateLocked : Option (TimestampedValue String) := none
  closureLiftgateClosed : Option (TimestampedValue String) := none
  closureTonneauLocked : Option (TimestampedValue String) := none
  closureTonneauClosed : Option (TimestampedValue String) := none
  tirePressureStatusFrontLeft : Option (TimestampedValue String) := none
  tirePressureStatusFrontRight : Option (TimestampedValue String) := none
  tirePressureStatusRearLeft : Option (TimestampedValue String) := none
  tirePressureStatusRearRight : Option (TimestampedValue String) := none
deriving DecidableEq

/-- Rivian-package ClosureState: four closure statuses (Go string enum). -/
structure ClosureState where
  frontLeft : String := ""
  frontRight : String := ""
  rearLeft : String := ""
  rearRight : String := ""
deriving DecidableEq

/-- Rivian-package TirePressures: four PSI readings plus the update instant. -/
structure TirePressures where
  frontLeft : ℚ := 0
  frontRight : ℚ := 0
  rearLeft : ℚ := 0
  rearRight : ℚ := 0
  updatedAt : Int := 0
deriving DecidableEq

/-- Rivian-package VehicleState: the decoded state produced by the client. -/
structure VehicleState where
  vehicleID : String := ""
  updatedAt : Int := 0
  batteryLevel : ℚ := 0
  batteryCapacity : ℚ := 0
  rangeEstimate : ℚ := 0
  chargeState : String := ""
  chargeLimit : Int := 0
  chargingRate : Option ℚ := none
  chargingTimeLeft : Option Int := none
  isLocked : Bool := false
  isOnline : Bool := false
  odometer : ℚ := 0
  cabinTemp : Option ℚ := none
  exteriorTemp : Option ℚ := none
  doors : ClosureState := {}
  windows : ClosureState := {}
  frunk : String := ""
  liftgate : String := ""
  tonneauCover : Option String := none
  tirePressures : TirePressures := {}
  latitude : Option ℚ := none
  longitude : Option ℚ := none
deriving DecidableEq

/-- Rivian-package Vehicle: identity record from GetVehicles. -/
structure Vehicle where
  id : String := ""
  vin : String := ""
  name : String := ""
  model : String := ""
  year : Int := 0
deriving DecidableEq

/-- Rivian-package Credentials. -/
structure Credentials where
  accessToken : String := ""
  refreshToken : String := ""
  expiresAt : Int := 0
  userID : String := ""
deriving DecidableEq

/-- parseChargeState from the rivian package: maps the wire charge-state
string to the ChargeState enum value (a Go string). -/
def parseChargeState (status : String) : String :=
  if status = "charging" then "charging"
  else if status = "complete" ∨ status = "fully_charged" then "complete"
  else if status = "scheduled" then "scheduled"
  else if status = "disconnected" ∨ status = "not_connected" then "disconnected"
  else if status = "not_charging" ∨ status = "stopped" then "not_charging"
  else "unknown"

/-- parseClosureStatus from the rivian package. -/
def parseClosureStatus (status : Option String) : String :=
  match status with
  | none => "unknown"
  | some s =>
    if s = "closed" then "closed"
    else if s = "open" then "open"
    else "unknown"

/-- parseClosureStatusFromTimestamped from the rivian package. -/
def parseClosureStatusFromTimestamped (ts : Option (TimestampedValue String)) : String :=
  match ts with
  | none => "unknown"
  | some t => parseClosureStatus (some t.value)

/-- parseDoorStatus from the rivian package. -/
def parseDoorStatus (ts : Option (TimestampedValue String)) : String :=
  match ts with
  | none => "unknown"
  | some t => parseClosureStatus (some t.value)

/-- One step of the allLocked computation in parseVehicleState: the Go
condition X != nil AND X.Value != "locked". -/
def presentAndNotLocked : Option (TimestampedValue String) → Bool
  | some t => decide (t.value ≠ "locked")
  | none => false

/-- parseVehicleState from the rivian package. The Go function starts from
the zero state, fills each field at most once under a nil check, and returns
the result; each field below carries exactly the assignment (or conditional
assignment) the Go body performs on it. The Go call time.Now() becomes the
extra argument now. -/
def parseVehicleState (vehicleID : String) (apiState : VehicleStateData) (now : Int) :
    VehicleState :=
  let allLocked := true
  let allLocked := if presentAndNotLocked apiState.doorFrontLeftLocked then false else allLocked
  let allLocked := if presentAndNotLocked apiState.doorFrontRightLocked then false else allLocked
  let allLocked := if presentAndNotLocked apiState.doorRearLeftLocked then false else allLocked
  let allLocked := if presentAndNotLocked apiState.doorRearRightLocked then false else allLocked
  { vehicleID := vehicleID
    updatedAt := now
    batteryLevel := match apiState.batteryLevel with
      | some t => t.value
      | none => 0
    rangeEstimate := match apiState.distanceToEmpty with
      | some t => t.value
      | none => 0
    chargeState := match apiState.chargerState with
      | some t => parseChargeState t.value
      | none => ""
    chargeLimit := match apiState.batteryLimit with
      | some t => goTruncInt t.value
      | none => 0
    chargingTimeLeft := match apiState.timeToEndOfCharge with
      | some t => if 0 < t.value then some (now + t.value * Second) else none
      | none => none
    odometer := match apiState.vehicleMileage with
      | some t => t.value
      | none => 0
    cabinTemp := match apiState.cabinClimateInteriorTemperature with
      | some t => some t.value
      | none => none
    isLocked := allLocked
    isOnline := true
    doors :=
      { frontLeft := parseDoorStatus apiState.doorFrontLeftClosed,
        frontRight := parseDoorStatus apiState.doorFrontRightClosed,
        rearLeft := parseDoorStatus apiState.doorRearLeftClosed,
        rearRight := parseDoorStatus apiState.doorRearRightClosed }
    windows :=
      { frontLeft := parseClosureStatusFromTimestamped apiState.windowFrontLeftClosed,
        frontRight := parseClosureStatusFromTimestamped apiState.windowFrontRightClosed,
        rearLeft := parseClosureStatusFromTimestamped apiState.windowRearLeftClosed,
        rearRight := parseClosureStatusFromTimestamped apiState.windowRearRightClosed }
    frunk := parseClosureStatusFromTimestamped apiState.closureFrunkClosed
    liftgate := parseClosureStatusFromTimestamped apiState.closureLiftgateClosed
    tonneauCover := match apiState.closureTonneauClosed with
      | some _ => some (parseClosureStatusFromTimestamped apiState.closureTonneauClosed)
      | none => none
    tirePressures := match apiState.tirePressureStatusFrontLeft with
      | some _ => { ({} : TirePressures) with frontLeft := 0 }
      | none => {}
    latitude := match apiState.gnssLocation with
      | some g => some g.latitude
      | none => none
    longitude := match apiState.gnssLocation with
      | some g => some g.longitude
      | none => none }

/-- Claim-side reading of C1: a door-lock field decodes to locked only when
it is present and carries the value locked. -/
def decodesToLocked : Option (TimestampedValue String) → Bool
  | some t => decide (t.value = "locked")
  | none => false

/-- Door-lock fold as the code actually computes it: an absent door-lock
status counts as locked. -/
def presentLockOK : Option (TimestampedValue String) → Bool
  | some t => decide (t.value = "locked")
  | none => true

end Rivian

namespace Model

/-- Model-package Location. -/
structure Location where
  latitude : ℚ := 0
  longitude : ℚ := 0
  updatedAt : Int := 0
deriving DecidableEq

/-- Model-package Closures: four closure statuses (Go string enum). -/
structure Closures where
  frontLeft : String := ""
  frontRight : String := ""
  rearLeft : String := ""
  rearRight : String := ""
deriving DecidableEq

/-- AnyOpen method on Closures. -/
def Closures.AnyOpen (c : Closures) : Bool :=
  c.frontLeft == "open" || c.frontRight == "open" ||
    c.rearLeft == "open" || c.rearRight == "open"

/-- AllClosed method on Closures. -/
def Closures.AllClosed (c : Closures) : Bool :=
  c.frontLeft == "closed" && c.frontRight == "closed" &&
    c.rearLeft == "closed" && c.rearRight == "closed"

/-- Model-package TirePressures: PSI readings, per-corner statuses, and the
update instant. -/
structure TirePressures where
  frontLeft : ℚ := 0
  frontRight : ℚ := 0
  rearLeft : ℚ := 0
  rearRight : ℚ := 0
  frontLeftStatus : String := ""
  frontRightStatus : String := ""
  rearLeftStatus : String := ""
  rearRightStatus : String := ""
  updatedAt : Int := 0
deriving DecidableEq

/-- Model-package VehicleState: the consumer-facing domain state. -/
structure VehicleState where
  vehicleID : String := ""
  vin : String := ""
  name : String := ""
  model : String := ""
  updatedAt : Int := 0
  batteryLevel : ℚ := 0
  batteryCapacity : ℚ := 0
  rangeEstimate : ℚ := 0
  chargeState : String := ""
  chargeLimit : Int := 0
  chargingRate : Option ℚ := none
  timeToCharge : Option Int := none
  location : Option Location := none
  cabinTemp : Option ℚ := none
  exteriorTemp : Option ℚ := none
  isLocked : Bool := false
  isOnline : Bool := false
  odometer : ℚ := 0
  doors : Closures := {}
  windows : Closures := {}
  frunk : String := ""
  liftgate : String := ""
  tonneauCover : Option String := none
  tirePressures : TirePressures := {}
  readyScore : Option ℚ := none
  rangeStatus : String := ""
deriving DecidableEq

/-- DetermineRangeStatus from the model package. -/
def DetermineRangeStatus (miles : ℚ) : String :=
  if miles < 25 then "critical"
  else if miles < 50 then "low"
  else "normal"

/-- Go dynamic value as it appears in the map carried by a
PartialStateUpdate (the interface-typed map values the reducer
type-asserts against). -/
inductive GoValue where
  | float (q : ℚ)
  | str (s : String)
  | boolean (b : Bool)
deriving DecidableEq

/-- PartialStateUpdate event from the model package; the Go map becomes an
association list whose keys are unique (a Go map cannot repeat a key). -/
structure PartialStateUpdate where
  vehicleID : String := ""
  updates : List (String × GoValue) := []
deriving DecidableEq

/-- One iteration of the update loop in PartialStateUpdate.ApplyTo: the Go
switch on the field name, with each case guarded by the type assertion on
the dynamic value. -/
def applyField (s : VehicleState) (field : String) (value : GoValue) : VehicleState :=
  if field = "batteryLevel" then
    match value with
    | .float v => { s with batteryLevel := v }
    | _ => s
  else if field = "rangeEstimate" then
    match value with
    | .float v => { s with rangeEstimate := v, rangeStatus := DetermineRangeStatus v }
    | _ => s
  else if field = "chargeState" then
    match value with
    | .str v => { s with chargeState := v }
    | _ => s
  else if field = "isLocked" then
    match value with
    | .boolean v => { s with isLocked := v }
    | _ => s
  else if field = "cabinTemp" then
    match value with
    | .float v => { s with cabinTemp := some v }
    | _ => s
  else s

/-- Starting state of PartialStateUpdate.ApplyTo: the current state if
present, otherwise a fresh zero state carrying only the event's vehicle id. -/
def PartialStateUpdate.initial (e : PartialStateUpdate) (current : Option VehicleState) :
    VehicleState :=
  match current with
  | some s => s
  | none => { vehicleID := e.vehicleID }

/-- PartialStateUpdate.ApplyTo from the model package: copy the current
state (creating it when absent), stamp updatedAt with the reduction time,
then apply each map entry through the switch. -/
def PartialStateUpdate.ApplyTo (e : PartialStateUpdate) (current : Option VehicleState)
    (now : Int) : VehicleState :=
  let updated := { e.initial current with updatedAt := now }
  e.updates.foldl (fun s fv => applyField s fv.1 fv.2) updated

/-- Reducer from the model package, restricted to the event variant the
claims quantify over; Dispatch applies the event to the held state and
stores the result. -/
structure Reducer where
  currentState : Option VehicleState := none
deriving DecidableEq

/-- Reducer.Dispatch for a PartialStateUpdate event. -/
def Reducer.Dispatch (r : Reducer) (e : PartialStateUpdate) (now : Int) : Reducer :=
  { currentState := some (e.ApplyTo r.currentState now) }

/-- Folding Reducer.Dispatch over a finite sequence of partial-update
events, each tagged with its reduction time. -/
def Reducer.DispatchAll (r : Reducer) (events : List (PartialStateUpdate × Int)) : Reducer :=
  events.foldl (fun r et => r.Dispatch et.1 et.2) r

/-- The recognised field names of the partial-update switch. -/
def recognisedFields : List String :=
  ["batteryLevel", "rangeEstimate", "chargeState", "isLocked", "cabinTemp"]

/-- CalculateReadyScore from insights.go in the model package, embedded
with rationals in place of float64. -/
def VehicleState.CalculateReadyScore (v : VehicleState) : Option ℚ :=
  if !v.isOnline then none
  else
    let score : ℚ := 0
    let batteryScore := v.batteryLevel
    let score := score + batteryScore * 0.4
    let rangeScore := min (v.rangeEstimate / 300 * 100) 100
    let score := score + rangeScore * 0.2
    let closureScore : ℚ := 100
    let closureScore := if v.doors.AnyOpen then closureScore - 50 else closureScore
    let closureScore := if v.windows.AnyOpen then closureScore - 25 else closureScore
    let closureScore := if v.frunk = "open" then closureScore - 12.5 else closureScore
    let closureScore := if v.liftgate = "open" then closureScore - 12.5 else closureScore
    let closureScore := max closureScore 0
    let score := score + closureScore * 0.2
    let lockScore : ℚ := if v.isLocked then 100 else 0
    let score := score + lockScore * 0.1
    let tireScore : ℚ := if v.tirePressures.updatedAt = 0 then 50 else 100
    let score := score + tireScore * 0.1
    some (mathRound (score * 10) / 10)

/-- Claim-side weighted formula of the specification (section 4.2), before
rounding: 40 percent battery, 20 percent capped range, 20 percent closure
score with per-closure penalties clamped at zero, 10 percent lock, 10
percent tire observability. -/
def readyScoreSpecFormula (v : VehicleState) : ℚ :=
  0.4 * v.batteryLevel
    + 0.2 * (min (v.rangeEstimate / 300) 1 * 100)
    + 0.2 * max 0 (100 - (if v.doors.AnyOpen then 50 else 0)
        - (if v.windows.AnyOpen then 25 else 0)
        - (if v.frunk = "open" then 12.5 else 0)
        - (if v.liftgate = "open" then 12.5 else 0))
    + 0.1 * (if v.isLocked then 100 else 0)
    + 0.1 * (if v.tirePressures.updatedAt = 0 then 50 else 100)

/-- Rounding to one decimal as the Go code performs it. -/
def roundTo1 (q : ℚ) : ℚ := mathRound (q * 10) / 10

/-- The tuple of VehicleState fields that lie outside the partial-update
switch: everything except batteryLevel, rangeEstimate, rangeStatus,
chargeState, isLocked, cabinTemp and the updatedAt stamp. -/
structure FrameFields where
  vehicleID : String
  vin : String
  name : String
  model : String
  batteryCapacity : ℚ
  chargeLimit : Int
  chargingRate : Option ℚ
  timeToCharge : Option Int
  location : Option Location
  exteriorTemp : Option ℚ
  isOnline : Bool
  odometer : ℚ
  doors : Closures
  windows : Closures
  frunk : String
  liftgate : String
  tonneauCover : Option String
  tirePressures : TirePressures
  readyScore : Option ℚ
deriving DecidableEq

/-- Projection of a VehicleState onto the fields the partial-update switch
never writes. -/
def VehicleState.frame (s : VehicleState) : FrameFields :=
  { vehicleID := s.vehicleID, vin := s.vin, name := s.name, model := s.model,
    batteryCapacity := s.batteryCapacity, chargeLimit := s.chargeLimit,
    chargingRate := s.chargingRate, timeToCharge := s.timeToCharge,
    location := s.location, exteriorTemp := s.exteriorTemp,
    isOnline := s.isOnline, odometer := s.odometer,
    doors := s.doors, windows := s.windows,
    frunk := s.frunk, liftgate := s.liftgate,
    tonneauCover := s.tonneauCover, tirePressures := s.tirePressures,
    readyScore := s.readyScore }

end Model

namespace Rivian

/-- GraphQL error object of the wire protocol (struct graphqlError). -/
structure GraphQLError where
  message : String := ""
  path : List String := []
deriving DecidableEq

/-- Parsed GraphQL response body (struct graphqlResponse); the data portion
is kept abstract as the already-decoded payload type. -/
structure GraphQLResponse (α : Type) where
  data : α
  errors : List GraphQLError := []

/-- HTTP response as doGraphQL inspects it: status code, raw body, and the
body parsed as a GraphQL response when it is well-formed JSON. -/
structure HTTPResponse (α : Type) where
  statusCode : Int
  body : String := ""
  parsed : Option (GraphQLResponse α) := none

/-- Outcome of doGraphQL: success with the decoded data, the non-200
transport failure carrying status and body, the protocol failure carrying
the first GraphQL error message, or a body-decode failure. -/
inductive GQLResult (α : Type) where
  | ok (a : α)
  | transportError (status : Int) (body : String)
  | protocolError (message : String)
  | decodeError
deriving DecidableEq

/-- doGraphQL response handling from the rivian package: a non-200 status
fails with the status and body; a 200 body that does not decode fails with
a decode error; a decoded body with a non-empty errors array fails with the
first error's message; otherwise the data is returned. -/
def doGraphQL {α : Type} (resp : HTTPResponse α) : GQLResult α :=
  if resp.statusCode ≠ 200 then .transportError resp.statusCode resp.body
  else
    match resp.parsed with
    | none => .decodeError
    | some g =>
      match g.errors with
      | e :: _ => .protocolError e.message
      | [] => .ok g.data

/-- GQLResult success recogniser. -/
def GQLResult.isOk {α : Type} : GQLResult α → Bool
  | .ok _ => true
  | _ => false

/-- HTTPClient.IsAuthenticated from the rivian package: credentials must
exist and the expiry must lie strictly beyond now plus the 5-minute buffer. -/
def IsAuthenticated (credentials : Option Credentials) (now : Int) : Bool :=
  match credentials with
  | none => false
  | some c => decide (now + 5 * Minute < c.expiresAt)

/-- Login result as decoded from the polymorphic Login mutation response
(struct loginResponse), with every token field optional. -/
structure LoginResult where
  typename : String := ""
  accessToken : Option String := none
  refreshToken : Option String := none
  userSessionToken : Option String := none
  otpToken : Option String := none
deriving DecidableEq

/-- Outcome of the login-response handling in HTTPClient.Authenticate. The
nilDereference outcome marks the Go run-time panic that dereferencing a nil
token pointer produces. -/
inductive AuthResult where
  | ok (credentials : Credentials)
  | otpRequired (sessionID : String)
  | errMFANoToken
  | errMissingTokens
  | nilDereference
deriving DecidableEq

/-- Response handling of HTTPClient.Authenticate after the Login mutation
returns: the MFA variant yields otpRequired when its token is present; the
success variant checks only accessToken and refreshToken for nil and then
dereferences userSessionToken unconditionally, which panics when that field
is absent. -/
def authenticateHandleLogin (login : LoginResult) (now : Int) : AuthResult :=
  if login.typename = "MobileMFALoginResponse" then
    match login.otpToken with
    | some t => .otpRequired t
    | none => .errMFANoToken
  else if login.accessToken.isNone || login.refreshToken.isNone then
    .errMissingTokens
  else
    match login.userSessionToken, login.refreshToken with
    | some ust, some rt =>
      .ok { accessToken := ust, refreshToken := rt, expiresAt := now + 24 * Hour }
    | none, _ => .nilDereference
    | _, none => .nilDereference

/-- GraphQL-over-WebSocket frame written by the client. -/
inductive Frame where
  | connectionInit
  | start (id : String) (query : String) (vars : List (String × Model.GoValue))
  | stop (id : String)
  | connectionTerminate
deriving DecidableEq

/-- Start-frame recogniser. -/
def Frame.isStart : Frame → Bool
  | .start _ _ _ => true
  | _ => false

/-- Go map assignment on an association list: replace the value when the
key is present, append otherwise. -/
def mapSet {κ : Type} (m : List (String × κ)) (k : String) (v : κ) : List (String × κ) :=
  match m with
  | [] => [(k, v)]
  | (k', v') :: rest => if k' = k then (k, v) :: rest else (k', v') :: mapSet rest k v

/-- Go map deletion on an association list. -/
def mapDelete {κ : Type} (m : List (String × κ)) (k : String) : List (String × κ) :=
  match m with
  | [] => []
  | (k', v') :: rest => if k' = k then rest else (k', v') :: mapDelete rest k

/-- Go map lookup on an association list. -/
def mapGet {κ : Type} (m : List (String × κ)) (k : String) : Option κ :=
  match m with
  | [] => none
  | (k', v') :: rest => if k' = k then some v' else mapGet rest k

/-- WebSocketClient state (struct WebSocketClient): the subscription
registry maps a subscription id to its callback only — the Go field is
subscriptions map[string]SubscriptionCallback. The callback type stays a
parameter. -/
structure WebSocketClient (κ : Type) where
  connected : Bool := false
  subscriptions : List (String × κ) := []
  reconnectCount : Int := 0
  closed : Bool := false

/-- MaxReconnects constant from the rivian package. -/
def MaxReconnects : Int := 10

/-- Result of WebSocketClient.Subscribe: the client after the call, the
frames written to the socket, and the returned error if any. -/
structure SubscribeResult (κ : Type) where
  client : WebSocketClient κ
  frames : List Frame
  result : Except String Unit

/-- WebSocketClient.Subscribe from the rivian package: fail when not
connected; otherwise store the callback under the id (overwriting any
existing entry, as a Go map assignment does), write the start frame, and on
a write failure delete the id and fail. The writeOk flag stands for the
success of the socket write. -/
def WebSocketClient.Subscribe {κ : Type} (c : WebSocketClient κ) (id : String)
    (query : String) (vars : List (String × Model.GoValue)) (callback : κ)
    (writeOk : Bool) : SubscribeResult κ :=
  if !c.connected then
    { client := c, frames := [], result := .error "not connected" }
  else
    let c' := { c with subscriptions := mapSet c.subscriptions id callback }
    if writeOk then
      { client := c', frames := [.start id query vars], result := .ok () }
    else
      { client := { c' with subscriptions := mapDelete c'.subscriptions id },
        frames := [], result := .error "send start" }

/-- The resubscription loop at the end of handleDisconnect: the Go body
only discards the id and callback of each registry entry and writes no
frame, so the fold emits nothing. -/
def resubscribeFrames {κ : Type} (subs : List (String × κ)) : List Frame :=
  subs.foldl (fun frames _ => frames) []

/-- WebSocketClient.handleDisconnect from the rivian package: a no-op on a
closed client; terminal close once MaxReconnects attempts are spent;
otherwise bump the attempt counter and redial. A successful Connect resets
the counter, marks the client open, and writes connection_init; the
resubscription loop then writes nothing because the registry kept no query
or variables. The dialOk flag stands for the success of the redial. -/
def WebSocketClient.handleDisconnect {κ : Type} (c : WebSocketClient κ) (dialOk : Bool) :
    WebSocketClient κ × List Frame :=
  if c.closed then (c, [])
  else if MaxReconnects ≤ c.reconnectCount then
    ({ c with connected := false, closed := true }, [])
  else
    let c1 := { c with connected := false, reconnectCount := c.reconnectCount + 1 }
    if !dialOk then (c1, [])
    else
      let c2 := { c1 with connected := true, closed := false, reconnectCount := 0 }
      (c2, Frame.connectionInit :: resubscribeFrames c2.subscriptions)

end Rivian

namespace Auth

/-- CachedCredentials from the auth package. -/
structure CachedCredentials where
  email : String := ""
  accessToken : String := ""
  refreshToken : String := ""
  expiresAt : Int := 0
  savedAt : Int := 0
deriving DecidableEq

/-- CachedCredentials.IsValid from the auth package: time.Until(expiresAt)
must exceed the 5-minute buffer. -/
def CachedCredentials.IsValid (c : CachedCredentials) (now : Int) : Bool :=
  decide (5 * Minute < c.expiresAt - now)

end Auth

/-! ## Theorems -/

/-- C10: for every vehicle-state wire payload, the decoded state has
is_online = true unconditionally; the decoder never produces an offline
state, regardless of which sensor fields are present or absent. -/
theorem C10_parseVehicleState_always_online
    (vehicleID : String) (apiState : Rivian.VehicleStateData) (now : Int) :
    (Rivian.parseVehicleState vehicleID apiState now).isOnline = true := rfl

/-- C1 counterexample: on the wire payload with every field absent, the
decoder returns is_locked = true even though no door-lock status decodes to
locked, so is_locked is not the all-unknowns-are-false AND of the four
door-lock statuses that the claim describes. -/
theorem C1_isLocked_counterexample :
    (Rivian.parseVehicleState "v1" {} 0).isLocked = true ∧
    (Rivian.decodesToLocked (({} : Rivian.VehicleStateData).doorFrontLeftLocked) &&
     Rivian.decodesToLocked (({} : Rivian.VehicleStateData).doorFrontRightLocked) &&
     Rivian.decodesToLocked (({} : Rivian.VehicleStateData).doorRearLeftLocked) &&
     Rivian.decodesToLocked (({} : Rivian.VehicleStateData).doorRearRightLocked)) = false :=
  ⟨rfl, rfl⟩

/-- C1 amended: the decoded is_locked is the AND over the four door-lock
fields where a present status counts as locked exactly when its value is
the string locked, and an absent status counts as locked; equivalently,
is_locked is true iff no door-lock status is present with a value other
than locked. -/
theorem C1_isLocked_amended
    (vehicleID : String) (apiState : Rivian.VehicleStateData) (now : Int) :
    (Rivian.parseVehicleState vehicleID apiState now).isLocked =
      (Rivian.presentLockOK apiState.doorFrontLeftLocked &&
       Rivian.presentLockOK apiState.doorFrontRightLocked &&
       Rivian.presentLockOK apiState.doorRearLeftLocked &&
       Rivian.presentLockOK apiState.doorRearRightLocked) := by
  show (let a := true
        let a := if Rivian.presentAndNotLocked apiState.doorFrontLeftLocked then false else a
        let a := if Rivian.presentAndNotLocked apiState.doorFrontRightLocked then false else a
        let a := if Rivian.presentAndNotLocked apiState.doorRearLeftLocked then false else a
        if Rivian.presentAndNotLocked apiState.doorRearRightLocked then false else a) = _
  cases hfl : apiState.doorFrontLeftLocked <;>
    cases hfr : apiState.doorFrontRightLocked <;>
      cases hrl : apiState.doorRearLeftLocked <;>
        cases hrr : apiState.doorRearRightLocked <;>
          simp [Rivian.presentAndNotLocked, Rivian.presentLockOK] <;>
            ac_rfl

namespace Model

theorem applyField_frame (s : VehicleState) (f : String) (v : GoValue) :
    (applyField s f v).frame = s.frame := by
  unfold applyField
  split_ifs <;> cases v <;> rfl

theorem applyField_updatedAt (s : VehicleState) (f : String) (v : GoValue) :
    (applyField s f v).updatedAt = s.updatedAt := by
  unfold applyField
  split_ifs <;> cases v <;> rfl

theorem applyField_range_of_ne (s : VehicleState) (f : String) (v : GoValue)
    (hf : f ≠ "rangeEstimate") :
    (applyField s f v).rangeEstimate = s.rangeEstimate ∧
      (applyField s f v).rangeStatus = s.rangeStatus := by
  unfold applyField
  split_ifs <;> cases v <;> simp_all

theorem foldl_applyField_preserve {α : Type} (g : VehicleState → α)
    (hg : ∀ s f v, g (applyField s f v) = g s) :
    ∀ (l : List (String × GoValue)) (s : VehicleState),
      g (l.foldl (fun s fv => applyField s fv.1 fv.2) s) = g s := by
  intro l
  induction l with
  | nil => intro s; rfl
  | cons hd tl ih =>
    intro s
    simpa [hg] using ih (applyField s hd.1 hd.2)

theorem foldl_applyField_range_of_not_mem :
    ∀ (l : List (String × GoValue)) (s : VehicleState),
      "rangeEstimate" ∉ l.map Prod.fst →
      (l.foldl (fun s fv => applyField s fv.1 fv.2) s).rangeEstimate = s.rangeEstimate ∧
        (l.foldl (fun s fv => applyField s fv.1 fv.2) s).rangeStatus = s.rangeStatus := by
  intro l
  induction l with
  | nil => intro s _; exact ⟨rfl, rfl⟩
  | cons hd tl ih =>
    intro s hmem
    simp only [List.map_cons, List.mem_cons] at hmem
    push_neg at hmem
    obtain ⟨hhd, htl⟩ := hmem
    have h1 := applyField_range_of_ne s hd.1 hd.2 (fun h => hhd h.symm)
    have h2 := ih (applyField s hd.1 hd.2) htl
    simp only [List.foldl_cons]
    exact ⟨h2.1.trans h1.1, h2.2.trans h1.2⟩

theorem foldl_applyField_range_set :
    ∀ (l : List (String × GoValue)) (s : VehicleState) (q : ℚ),
      (l.map Prod.fst).Nodup →
      ("rangeEstimate", GoValue.float q) ∈ l →
      (l.foldl (fun s fv => applyField s fv.1 fv.2) s).rangeEstimate = q ∧
        (l.foldl (fun s fv => applyField s fv.1 fv.2) s).rangeStatus =
          DetermineRangeStatus q := by
  intro l
  induction l with
  | nil => intro s q _ hmem; cases hmem
  | cons hd tl ih =>
    intro s q hnodup hmem
    simp only [List.map_cons, List.nodup_cons] at hnodup
    obtain ⟨hhd, htl⟩ := hnodup
    rcases List.mem_cons.mp hmem with heq | hmem'
    · subst heq
      simp only [List.foldl_cons]
      have hnot : "rangeEstimate" ∉ tl.map Prod.fst := hhd
      have := foldl_applyField_range_of_not_mem tl
        (applyField s "rangeEstimate" (GoValue.float q)) hnot
      refine ⟨this.1.trans ?_, this.2.trans ?_⟩ <;> rfl
    · simp only [List.foldl_cons]
      exact ih (applyField s hd.1 hd.2) q htl hmem'

theorem ApplyTo_updatedAt (e : PartialStateUpdate) (current : Option VehicleState)
    (now : Int) : (e.ApplyTo current now).updatedAt = now :=
  foldl_applyField_preserve VehicleState.updatedAt applyField_updatedAt e.updates _

theorem ApplyTo_frame (e : PartialStateUpdate) (current : Option VehicleState)
    (now : Int) : (e.ApplyTo current now).frame = (e.initial current).frame :=
  foldl_applyField_preserve VehicleState.frame applyField_frame e.updates _

/-- C2: a partial-update event applied to any current state (present or
absent) stamps updatedAt with the reduction time and leaves every field
outside the recognised set (battery level, range estimate, charge state,
is_locked, cabin temperature, plus the derived range status) unchanged from
the starting state; an entry whose key is not recognised leaves the state
unchanged; each recognised entry writes exactly its field; and whenever the
update map carries the range field with a numeric value, the resulting
range_status is the pure range-status function of that new range value. -/
theorem C2_partial_update_apply :
    (∀ (e : PartialStateUpdate) (current : Option VehicleState) (now : Int),
      (e.ApplyTo current now).updatedAt = now ∧
        (e.ApplyTo current now).frame = (e.initial current).frame) ∧
    (∀ (s : VehicleState) (f : String) (v : GoValue),
      f ∉ recognisedFields → applyField s f v = s) ∧
    (∀ (s : VehicleState) (q : ℚ) (x : String) (b : Bool),
      applyField s "batteryLevel" (GoValue.float q) = { s with batteryLevel := q } ∧
      applyField s "rangeEstimate" (GoValue.float q) =
        { s with rangeEstimate := q, rangeStatus := DetermineRangeStatus q } ∧
      applyField s "chargeState" (GoValue.str x) = { s with chargeState := x } ∧
      applyField s "isLocked" (GoValue.boolean b) = { s with isLocked := b } ∧
      applyField s "cabinTemp" (GoValue.float q) = { s with cabinTemp := some q }) ∧
    (∀ (e : PartialStateUpdate) (current : Option VehicleState) (now : Int) (q : ℚ),
      (e.updates.map Prod.fst).Nodup →
      ("rangeEstimate", GoValue.float q) ∈ e.updates →
      (e.ApplyTo current now).rangeEstimate = q ∧
        (e.ApplyTo current now).rangeStatus = DetermineRangeStatus q) := by
  refine ⟨?_, ?_, ?_, ?_⟩
  · intro e current now
    exact ⟨ApplyTo_updatedAt e current now, ApplyTo_frame e current now⟩
  · intro s f v hf
    simp only [recognisedFields, List.mem_cons, List.not_mem_nil, or_false] at hf
    push_neg at hf
    obtain ⟨h1, h2, h3, h4, h5⟩ := hf
    unfold applyField
    simp [h1, h2, h3, h4, h5]
  · intro s q x b
    refine ⟨rfl, rfl, rfl, rfl, rfl⟩
  · intro e current now q hnodup hmem
    exact foldl_applyField_range_set e.updates _ q hnodup hmem

/-- C2 witness: instantiation of the C2 theorem on a concrete event with a
numeric range entry and an unrecognised key. -/
theorem C2_partial_update_apply_witness :
    (({ vehicleID := "v1",
        updates := [("rangeEstimate", GoValue.float 40), ("bogus", GoValue.str "x")] } :
        PartialStateUpdate).ApplyTo none 5).updatedAt = 5 ∧
    applyField {} "bogus" (GoValue.str "x") = ({} : VehicleState) ∧
    (({ vehicleID := "v1",
        updates := [("rangeEstimate", GoValue.float 40), ("bogus", GoValue.str "x")] } :
        PartialStateUpdate).ApplyTo none 5).rangeStatus = DetermineRangeStatus 40 := by
  refine ⟨(C2_partial_update_apply.1 _ none 5).1,
    C2_partial_update_apply.2.1 {} "bogus" (GoValue.str "x") (by decide),
    (C2_partial_update_apply.2.2.2 _ none 5 40 ?_ ?_).2⟩
  · decide
  · decide

/-- C3: starting from a state whose vin, name and model are non-empty,
dispatching any finite sequence of partial-update events through the
reducer yields a state with the same (hence still non-empty) vin, name and
model; partial updates never clear identity fields. -/
theorem C3_identity_preserved
    (events : List (PartialStateUpdate × Int)) (s : VehicleState)
    (hvin : s.vin ≠ "") (hname : s.name ≠ "") (hmodel : s.model ≠ "") :
    ∃ s', (Reducer.DispatchAll { currentState := some s } events).currentState = some s' ∧
      s'.vin = s.vin ∧ s'.name = s.name ∧ s'.model = s.model ∧
      s'.vin ≠ "" ∧ s'.name ≠ "" ∧ s'.model ≠ "" := by
  suffices h : ∀ (evs : List (PartialStateUpdate × Int)) (t : VehicleState),
      ∃ s', (Reducer.DispatchAll { currentState := some t } evs).currentState = some s' ∧
        s'.vin = t.vin ∧ s'.name = t.name ∧ s'.model = t.model by
    obtain ⟨s', h1, h2, h3, h4⟩ := h events s
    exact ⟨s', h1, h2, h3, h4, h2 ▸ hvin, h3 ▸ hname, h4 ▸ hmodel⟩
  intro evs
  induction evs with
  | nil => intro t; exact ⟨t, rfl, rfl, rfl, rfl⟩
  | cons hd tl ih =>
    intro t
    have hframe : (hd.1.ApplyTo (some t) hd.2).frame = t.frame :=
      ApplyTo_frame hd.1 (some t) hd.2
    obtain ⟨s', h1, h2, h3, h4⟩ := ih (hd.1.ApplyTo (some t) hd.2)
    refine ⟨s', h1, ?_, ?_, ?_⟩
    · exact h2.trans (congrArg FrameFields.vin hframe)
    · exact h3.trans (congrArg FrameFields.name hframe)
    · exact h4.trans (congrArg FrameFields.model hframe)

/-- C3 witness: instantiation of the C3 theorem on a concrete two-event
sequence starting from a fully identified state. -/
theorem C3_identity_preserved_witness :
    ∃ s', (Reducer.DispatchAll
        { currentState := some { vin := "VIN123", name := "My R1T", model := "R1T" } }
        [({ vehicleID := "v1", updates := [("batteryLevel", GoValue.float 90)] }, 1),
         ({ vehicleID := "v1", updates := [("isLocked", GoValue.boolean true)] }, 2)]).currentState
        = some s' ∧
      s'.vin = "VIN123" ∧ s'.name = "My R1T" ∧ s'.model = "R1T" ∧
      s'.vin ≠ "" ∧ s'.name ≠ "" ∧ s'.model ≠ "" := by
  have h := C3_identity_preserved
    [({ vehicleID := "v1", updates := [("batteryLevel", GoValue.float 90)] }, 1),
     ({ vehicleID := "v1", updates := [("isLocked", GoValue.boolean true)] }, 2)]
    { vin := "VIN123", name := "My R1T", model := "R1T" }
    (by decide) (by decide) (by decide)
  simpa using h

theorem mathRound_bounds (x : ℚ) (h0 : 0 ≤ x) (hB : x ≤ 1000) :
    0 ≤ mathRound x ∧ mathRound x ≤ 1000 := by
  unfold mathRound
  rw [if_neg (not_lt.mpr h0)]
  constructor
  · exact_mod_cast Int.floor_nonneg.mpr (by linarith)
  · have h : Int.floor (x + 1/2) < 1001 := by
      rw [Int.floor_lt]
      push_cast
      linarith
    have h' : Int.floor (x + 1/2) ≤ 1000 := by omega
    exact_mod_cast h'

theorem roundTo1_bounds (q : ℚ) (h0 : 0 ≤ q) (h1 : q ≤ 100) :
    0 ≤ roundTo1 q ∧ roundTo1 q ≤ 100 := by
  unfold roundTo1
  have := mathRound_bounds (q * 10) (by linarith) (by linarith)
  constructor
  · linarith [this.1]
  · linarith [this.2]

theorem min_range_eq (r : ℚ) : min (r / 300 * 100) 100 = min (r / 300) 1 * 100 := by
  rcases le_total (r / 300) 1 with h | h
  · rw [min_eq_left (show r / 300 * 100 ≤ 100 by linarith), min_eq_left h]
  · rw [min_eq_right (show (100:ℚ) ≤ r / 300 * 100 by linarith), min_eq_right h]
    norm_num

set_option maxHeartbeats 1000000 in
theorem CalculateReadyScore_eq_spec (v : VehicleState) (hon : v.isOnline = true) :
    v.CalculateReadyScore = some (roundTo1 (readyScoreSpecFormula v)) := by
  unfold VehicleState.CalculateReadyScore readyScoreSpecFormula roundTo1
  rw [hon]
  simp only [Bool.not_true, Bool.false_eq_true, if_false, min_range_eq]
  split_ifs <;> norm_num [max_def] <;> ring_nf

set_option maxHeartbeats 1000000 in
theorem readyScoreSpecFormula_bounds (v : VehicleState)
    (hb0 : 0 ≤ v.batteryLevel) (hb1 : v.batteryLevel ≤ 100)
    (hr : 0 ≤ v.rangeEstimate) :
    0 ≤ readyScoreSpecFormula v ∧ readyScoreSpecFormula v ≤ 100 := by
  unfold readyScoreSpecFormula
  have hm0 : 0 ≤ min (v.rangeEstimate / 300) 1 := le_min (by positivity) (by norm_num)
  have hm1 : min (v.rangeEstimate / 300) 1 ≤ 1 := min_le_right _ _
  set m := min (v.rangeEstimate / 300) 1 with hm
  have hc0 : (0:ℚ) ≤ max 0 (100 - (if v.doors.AnyOpen then 50 else 0)
      - (if v.windows.AnyOpen then 25 else 0)
      - (if v.frunk = "open" then 12.5 else 0)
      - (if v.liftgate = "open" then 12.5 else 0)) := le_max_left _ _
  have hc1 : max (0:ℚ) (100 - (if v.doors.AnyOpen then 50 else 0)
      - (if v.windows.AnyOpen then 25 else 0)
      - (if v.frunk = "open" then 12.5 else 0)
      - (if v.liftgate = "open" then 12.5 else 0)) ≤ 100 := by
    apply max_le (by norm_num)
    split_ifs <;> norm_num
  set c := max (0:ℚ) (100 - (if v.doors.AnyOpen then 50 else 0)
      - (if v.windows.AnyOpen then 25 else 0)
      - (if v.frunk = "open" then 12.5 else 0)
      - (if v.liftgate = "open" then 12.5 else 0)) with hc
  constructor
  · split_ifs <;> linarith
  · split_ifs <;> linarith

/-- C4 counterexample: an online state with battery level 50 (inside
[0,100]) but a negative range estimate makes CalculateReadyScore return
-155, which is outside [0,100], so the claimed bounds fail without a
non-negativity assumption on the range. -/
theorem C4_ready_score_counterexample :
    (({ isOnline := true, batteryLevel := 50, rangeEstimate := -3000 } :
        VehicleState).CalculateReadyScore) = some (-155) ∧
    ({ isOnline := true, batteryLevel := 50, rangeEstimate := -3000 } :
        VehicleState).isOnline = true ∧
    0 ≤ ({ isOnline := true, batteryLevel := 50, rangeEstimate := -3000 } :
        VehicleState).batteryLevel ∧
    ({ isOnline := true, batteryLevel := 50, rangeEstimate := -3000 } :
        VehicleState).batteryLevel ≤ 100 ∧
    ¬ ((0:ℚ) ≤ -155 ∧ (-155:ℚ) ≤ 100) := by
  refine ⟨?_, rfl, by norm_num, by norm_num, by norm_num⟩
  unfold VehicleState.CalculateReadyScore
  have hne : ¬("" : String) = "open" := by decide
  simp [Closures.AnyOpen, hne]
  norm_num [mathRound]

/-- C4 amended: offline states get no ready score; every online state's
ready score equals the weighted formula of the specification rounded to one
decimal; and for an online state with battery level in [0,100] AND a
non-negative range estimate the score lies in [0,100] (the original claim
omitted the range hypothesis, without which the bound fails). -/
theorem C4_ready_score_amended :
    (∀ v : VehicleState, v.isOnline = false → v.CalculateReadyScore = none) ∧
    (∀ v : VehicleState, v.isOnline = true →
      v.CalculateReadyScore = some (roundTo1 (readyScoreSpecFormula v))) ∧
    (∀ v : VehicleState, v.isOnline = true →
      0 ≤ v.batteryLevel → v.batteryLevel ≤ 100 → 0 ≤ v.rangeEstimate →
      ∃ r, v.CalculateReadyScore = some r ∧ 0 ≤ r ∧ r ≤ 100) := by
  refine ⟨?_, CalculateReadyScore_eq_spec, ?_⟩
  · intro v hoff
    unfold VehicleState.CalculateReadyScore
    rw [hoff]
    rfl
  · intro v hon hb0 hb1 hr
    have heq := CalculateReadyScore_eq_spec v hon
    have hb := readyScoreSpecFormula_bounds v hb0 hb1 hr
    have hrb := roundTo1_bounds _ hb.1 hb.2
    exact ⟨_, heq, hrb.1, hrb.2⟩

/-- C4 witness: instantiation of the C4 theorem on a concrete offline state
and on the fully ready online state of the Go unit tests (which scores
100). -/
theorem C4_ready_score_witness :
    (({ isOnline := false } : VehicleState).CalculateReadyScore = none) ∧
    (({ isOnline := true, batteryLevel := 50 } : VehicleState).CalculateReadyScore =
      some (roundTo1 (readyScoreSpecFormula
        ({ isOnline := true, batteryLevel := 50 } : VehicleState)))) ∧
    (∃ r, ({ isOnline := true, batteryLevel := 100, rangeEstimate := 300,
             isLocked := true,
             doors := { frontLeft := "closed", frontRight := "closed",
                        rearLeft := "closed", rearRight := "closed" },
             windows := { frontLeft := "closed", frontRight := "closed",
                          rearLeft := "closed", rearRight := "closed" },
             frunk := "closed", liftgate := "closed",
             tirePressures := { updatedAt := 1 } } :
        VehicleState).CalculateReadyScore = some r ∧ 0 ≤ r ∧ r ≤ 100) := by
  refine ⟨?_, ?_, ?_⟩
  · exact C4_ready_score_amended.1 _ rfl
  · exact C4_ready_score_amended.2.1 _ rfl
  · exact C4_ready_score_amended.2.2 _ rfl (by norm_num) (by norm_num) (by norm_num)

end Model

namespace Rivian

theorem doGraphQL_eq_of_parsed {α : Type} (resp : HTTPResponse α) (g : GraphQLResponse α)
    (h : resp.parsed = some g) :
    doGraphQL resp =
      if resp.statusCode ≠ 200 then .transportError resp.statusCode resp.body
      else
        match g.errors with
        | e :: _ => .protocolError e.message
        | [] => .ok g.data := by
  unfold doGraphQL
  rw [h]

/-- C5: for a request whose response body parses as a GraphQL response, the
call succeeds iff the HTTP status is 200 and the errors array is empty; a
non-200 status fails with the transport error carrying the status and the
body; a 200 status with a non-empty errors array fails with the protocol
error carrying the first error's message verbatim; and a 200 status with no
errors returns the decoded data. -/
theorem C5_graphql_contract {α : Type} (resp : HTTPResponse α) (g : GraphQLResponse α)
    (hparsed : resp.parsed = some g) :
    ((doGraphQL resp).isOk = true ↔ (resp.statusCode = 200 ∧ g.errors = [])) ∧
    (resp.statusCode ≠ 200 →
      doGraphQL resp = .transportError resp.statusCode resp.body) ∧
    (∀ (e : GraphQLError) (rest : List GraphQLError),
      resp.statusCode = 200 → g.errors = e :: rest →
      doGraphQL resp = .protocolError e.message) ∧
    (resp.statusCode = 200 → g.errors = [] → doGraphQL resp = .ok g.data) := by
  have heq := doGraphQL_eq_of_parsed resp g hparsed
  by_cases hsc : resp.statusCode = 200
  · cases herr : g.errors with
    | nil => simp [heq, hsc, herr, GQLResult.isOk]
    | cons e rest =>
      refine ⟨?_, ?_, ?_, ?_⟩
      · simp [heq, hsc, herr, GQLResult.isOk]
      · intro hne; exact absurd hsc hne
      · intro e' rest' _ h2
        rw [List.cons.injEq] at h2
        simp [heq, hsc, herr, h2.1]
      · intro _ h2
        exact absurd h2 (by simp)
  · refine ⟨?_, ?_, ?_, ?_⟩
    · simp [heq, hsc, GQLResult.isOk]
    · intro _; simp [heq, hsc]
    · intro e' rest' h2 _; exact absurd h2 hsc
    · intro h2 _; exact absurd h2 hsc

/-- C5 witness: instantiation of the C5 theorem on three concrete parsed
responses: a clean 200, a 200 carrying one GraphQL error, and a 500. -/
theorem C5_graphql_contract_witness :
    doGraphQL ({ statusCode := 200, body := "",
                 parsed := some { data := (42 : Int), errors := [] } } :
      HTTPResponse Int) = .ok 42 ∧
    doGraphQL ({ statusCode := 200, body := "",
                 parsed := some { data := (0 : Int),
                                  errors := [{ message := "schema drift" }] } } :
      HTTPResponse Int) = .protocolError "schema drift" ∧
    doGraphQL ({ statusCode := 500, body := "oops",
                 parsed := some { data := (0 : Int), errors := [] } } :
      HTTPResponse Int) = .transportError 500 "oops" := by
  refine ⟨?_, ?_, ?_⟩
  · exact (C5_graphql_contract _ { data := (42 : Int), errors := [] } rfl).2.2.2 rfl rfl
  · exact (C5_graphql_contract _
      ({ data := (0 : Int), errors := [{ message := "schema drift" }] } :
        GraphQLResponse Int) rfl).2.2.1 { message := "schema drift" } [] rfl rfl
  · exact (C5_graphql_contract _ { data := (0 : Int), errors := [] } rfl).2.1 (by decide)

/-- C7: on a Login response of the password-success variant that carries
accessToken and refreshToken but no userSessionToken, the client
dereferences the absent token and panics instead of returning a protocol
error; when all three tokens are present the credentials are set with the
user-session token stored in the access-token slot and a 24-hour expiry. -/
theorem C7_authenticate_nil_deref :
    authenticateHandleLogin
      { typename := "MobileLoginResponse", accessToken := some "AT",
        refreshToken := some "RT" } 0 = AuthResult.nilDereference ∧
    authenticateHandleLogin
      { typename := "MobileLoginResponse", accessToken := some "AT",
        refreshToken := some "RT", userSessionToken := some "UST" } 0 =
      AuthResult.ok { accessToken := "UST", refreshToken := "RT",
                      expiresAt := 24 * Hour } ∧
    authenticateHandleLogin { typename := "MobileLoginResponse" } 0 =
      AuthResult.errMissingTokens := by
  refine ⟨rfl, ?_, rfl⟩
  show AuthResult.ok _ = _
  norm_num

theorem mapGet_mapSet {κ : Type} (m : List (String × κ)) (k : String) (v : κ) :
    mapGet (mapSet m k v) k = some v := by
  induction m with
  | nil => simp [mapSet, mapGet]
  | cons hd tl ih =>
    by_cases h : hd.1 = k
    · simp [mapSet, mapGet, h]
    · simp [mapSet, mapGet, h, ih]

/-- C8 counterexample: on a connected client whose registry already holds
id s1 with callback 1, Subscribe with id s1 and callback 2 succeeds (no
error is returned) and the registry now maps s1 to the new callback, so a
duplicate id is neither rejected nor does it leave the existing
registration in place. -/
theorem C8_duplicate_subscribe_counterexample :
    ((({ connected := true, subscriptions := [("s1", (1:ℕ))] } :
        WebSocketClient ℕ).Subscribe "s1" "query Q" [] 2 true).result =
      Except.ok ()) ∧
    (mapGet ((({ connected := true, subscriptions := [("s1", (1:ℕ))] } :
        WebSocketClient ℕ).Subscribe "s1" "query Q" [] 2 true).client.subscriptions)
      "s1" = some 2) :=
  ⟨rfl, rfl⟩

/-- C8 amended: on a connected client with a successful socket write,
Subscribe always succeeds — also when the id is already registered — and
stores the new callback under the id with Go map-assignment semantics,
overwriting any existing registration, while emitting one start frame. -/
theorem C8_subscribe_amended {κ : Type} (c : WebSocketClient κ) (id query : String)
    (vars : List (String × Model.GoValue)) (callback : κ)
    (hconn : c.connected = true) :
    (c.Subscribe id query vars callback true).result = Except.ok () ∧
    (c.Subscribe id query vars callback true).client.subscriptions =
      mapSet c.subscriptions id callback ∧
    mapGet (c.Subscribe id query vars callback true).client.subscriptions id =
      some callback ∧
    (c.Subscribe id query vars callback true).frames = [.start id query vars] := by
  unfold WebSocketClient.Subscribe
  rw [hconn]
  exact ⟨rfl, rfl, mapGet_mapSet c.subscriptions id callback, rfl⟩

/-- C8 witness: instantiation of the C8 amended theorem on a concrete
connected client with a fresh id. -/
theorem C8_subscribe_amended_witness :
    ((({ connected := true } : WebSocketClient ℕ).Subscribe "s2" "query Q" [] 9
        true).result = Except.ok ()) ∧
    (mapGet ((({ connected := true } : WebSocketClient ℕ).Subscribe "s2" "query Q" [] 9
        true).client.subscriptions) "s2" = some 9) := by
  have h := C8_subscribe_amended ({ connected := true } : WebSocketClient ℕ)
    "s2" "query Q" [] 9 rfl
  exact ⟨h.1, h.2.2.1⟩

theorem resubscribeFrames_eq_nil {κ : Type} (subs : List (String × κ)) :
    resubscribeFrames subs = [] := by
  unfold resubscribeFrames
  induction subs with
  | nil => rfl
  | cons hd tl ih => exact ih

/-- C9 counterexample: a live client holding one subscription reconnects
successfully, yet the only frame written is connection_init — no start
frame is reissued, because the registry kept neither the query text nor the
variables of the live subscription. -/
theorem C9_reconnect_counterexample :
    ((({ connected := true, subscriptions := [("vehicle-state-v1", (7:ℕ))] } :
        WebSocketClient ℕ).handleDisconnect true).2 = [Frame.connectionInit]) ∧
    (((({ connected := true, subscriptions := [("vehicle-state-v1", (7:ℕ))] } :
        WebSocketClient ℕ).handleDisconnect true).2.any Frame.isStart) = false) :=
  ⟨rfl, rfl⟩

/-- C9 amended: the registry keyed by subscription id retains only the
callback; on a disconnect of a non-closed client below the reconnect limit
whose redial succeeds, the client writes exactly connection_init (no start
frame is reissued for any live subscription) and the registry entries,
callbacks included, survive unchanged. -/
theorem C9_reconnect_amended {κ : Type} (c : WebSocketClient κ)
    (hclosed : c.closed = false) (hcount : c.reconnectCount < MaxReconnects) :
    ((c.handleDisconnect true).2 = [Frame.connectionInit]) ∧
    (((c.handleDisconnect true).2.any Frame.isStart) = false) ∧
    ((c.handleDisconnect true).1.subscriptions = c.subscriptions) ∧
    ((c.handleDisconnect true).1.connected = true) := by
  unfold WebSocketClient.handleDisconnect
  rw [hclosed]
  rw [if_neg (by simp)]
  rw [if_neg (not_le.mpr hcount)]
  rw [if_neg (by simp)]
  refine ⟨?_, ?_, rfl, rfl⟩
  · simp [resubscribeFrames_eq_nil]
  · simp [resubscribeFrames_eq_nil, Frame.isStart]

/-- C9 witness: instantiation of the C9 amended theorem on a concrete live
client with one subscription. -/
theorem C9_reconnect_amended_witness :
    ((({ connected := true, subscriptions := [("vehicle-state-v1", (7:ℕ))] } :
        WebSocketClient ℕ).handleDisconnect true).2 = [Frame.connectionInit]) ∧
    ((({ connected := true, subscriptions := [("vehicle-state-v1", (7:ℕ))] } :
        WebSocketClient ℕ).handleDisconnect true).1.subscriptions =
      [("vehicle-state-v1", (7:ℕ))]) := by
  have h := C9_reconnect_amended
    ({ connected := true, subscriptions := [("vehicle-state-v1", (7:ℕ))] } :
      WebSocketClient ℕ) rfl (by decide)
  exact ⟨h.1, h.2.2.1⟩

end Rivian

/-- C6: is_authenticated is true iff credentials exist and the expiry lies
strictly beyond now plus five minutes; a cached credential expiring four
minutes from now is invalid and one expiring six minutes from now is
valid. -/
theorem C6_credentials_validity :
    (∀ (credentials : Option Rivian.Credentials) (now : Int),
      Rivian.IsAuthenticated credentials now = true ↔
        ∃ c, credentials = some c ∧ now + 5 * Minute < c.expiresAt) ∧
    (∀ now : Int,
      Auth.CachedCredentials.IsValid { expiresAt := now + 4 * Minute } now = false) ∧
    (∀ now : Int,
      Auth.CachedCredentials.IsValid { expiresAt := now + 6 * Minute } now = true) := by
  refine ⟨?_, ?_, ?_⟩
  · intro credentials now
    cases credentials with
    | none => simp [Rivian.IsAuthenticated]
    | some c => simp [Rivian.IsAuthenticated]
  · intro now
    simp [Auth.CachedCredentials.IsValid, Minute, Second]
  · intro now
    simp [Auth.CachedCredentials.IsValid, Minute, Second]

end RivianLS
